import Mathlib

/-!
Shallow embedding of the connectivity-failover daemon in
`Server/UDPServer.py` (class `UDPServer`), together with proofs of the
behavioural properties its design document states.

Embedding conventions:

* Python strings are Lean `String`s; the helpers `pySplit`, `pyStrip`
  and `pyLower` implement `str.split(",")`, `str.strip()` and
  `str.lower()` structurally over the character list, with Python's
  semantics (`"".split(",") = [""]`, empty fields kept, ASCII casing).
* Timestamps produced by the receiver's clock (`time.time()`) are
  modelled as integers `Time := ℤ`; each handled datagram carries one
  clock reading `now`, standing for the (essentially equal) readings
  the loop takes while processing that datagram.
* The per-domain dictionary `self.connectivity_0_start_time` is a total
  map `Domain → Option Time`; an absent key is `none`, `dict[k] = v` and
  `del dict[k]` are `setT`.
* External calls (`requests.post` to the lambda, LightSail
  `replace_ip`) have every exception caught inside the helper that makes
  them, so the caller's control flow and state never depend on the
  outcome.  Each call is recorded as an `ExtCall` event carrying an
  `ok : Bool` for the outcome the environment chose; the surrounding
  state transition is the same for either value.
* Network inputs (HTTP bodies of the IP-lookup services, the local
  socket trick) are parameters: `none` models "the attempt raised",
  `some body` a successful response.
-/

namespace CNListener

abbrev Domain := String

abbrev Time := ℤ

abbrev Tracker := Domain → Option Time

/-- Comma-splitting of a character list, with Python `str.split(",")`
semantics: the empty input yields one empty field and separators at the
ends yield empty fields. -/
def splitFields : List Char → List (List Char)
  | [] => [[]]
  | c :: cs =>
    if c = ',' then [] :: splitFields cs
    else
      match splitFields cs with
      | f :: fs => (c :: f) :: fs
      | [] => [[c]]

/-- Python `s.split(",")`. -/
def pySplit (s : String) : List String :=
  (splitFields s.data).map String.mk

/-- Python `s.strip()`: drop whitespace from both ends. -/
def pyStrip (s : String) : String :=
  String.mk (((s.data.dropWhile Char.isWhitespace).reverse.dropWhile
    Char.isWhitespace).reverse)

/-- Python `s.lower()` (ASCII, which is all the comparisons need). -/
def pyLower (s : String) : String :=
  String.mk (s.data.map Char.toLower)

/-- Address-family channel of a report, as the spec classifies the
`protocol` field. -/
inductive Protocol
  | primary
  | secondary
  | unknown
deriving DecidableEq, Repr

/-- Which clock API the receive loop reads for failure timing. -/
inductive ClockSource
  | wallClock
  | monotonicClock
deriving DecidableEq, Repr

/-- The clock used for every `failureStartedAt` store and every elapsed
computation in `receive_loop`: the source calls `time.time()` (the
system wall clock) at lines 147, 150 and 157 of `Server/UDPServer.py`;
`time.monotonic()` does not occur in the source. -/
def failureClock : ClockSource := ClockSource.wallClock

/-- One outbound call to an external collaborator, as observed by the
environment.  `ok` is the outcome the environment chose for the call;
the Python helpers catch every exception, so `ok` never influences the
caller. -/
inductive ExtCall
  | lambdaUpdate (clientIp : String) (connectivity : String)
      (domainName : Option String) (ok : Bool)
  | replaceIp (region : String) (instanceName : String) (ok : Bool)
deriving DecidableEq, Repr

/-- A parsed connectivity report: the first four comma-separated fields
of a datagram (lines 135-138 of the source). -/
structure Report where
  domain : String
  protocol : Protocol
  reportedAddress : String
  connectivityFlag : String
deriving DecidableEq, Repr

/-- Line 136 and lines 140/163: the protocol field is lowercased once and
compared against the literals `"v4"` and `"v6"`. -/
def parseProtocol (s : String) : Protocol :=
  if pyLower s = "v4" then Protocol.primary
  else if pyLower s = "v6" then Protocol.secondary
  else Protocol.unknown

/-- Lines 130-138: `data.decode("utf-8").strip().split(",")`, the
`len(msg) >= 4` guard, and the positional reads `msg[0] .. msg[3]`
(later fields ignored). -/
def parseReport (payload : String) : Option Report :=
  match pySplit (pyStrip payload) with
  | d :: p :: ip :: c :: _ => some ⟨d, parseProtocol p, ip, c⟩
  | _ => none

/-- The parsing contract exactly as the design document words it: the
raw payload is "split on comma into fields", with no preceding strip.
Kept only to compare against `parseReport`, the translation of the
source. -/
def parseReportSpec (payload : String) : Option Report :=
  match pySplit payload with
  | d :: p :: ip :: c :: _ => some ⟨d, parseProtocol p, ip, c⟩
  | _ => none

/-- Dictionary write `m[d] = v` (and, with `v = none`, `del m[d]`). -/
def setT (m : Tracker) (d : Domain) (v : Option Time) : Tracker :=
  fun x => if x = d then v else m x

/-- The failure-timer state machine of lines 144-161: the effect of one
primary-protocol report with connectivity `flag` received at `now` on
the `connectivity_0_start_time` dictionary.  The returned `Bool` is
whether `replace_instance_ip` is triggered. -/
def observe (tracker : Tracker) (domain_name : Domain) (flag : String)
    (now : Time) : Tracker × Bool :=
  if flag = "0" then
    match tracker domain_name with
    | none => (setT tracker domain_name (some now), false)
    | some start =>
      if 300 ≤ now - start then
        (setT tracker domain_name (some now), true)
      else
        (tracker, false)
  else
    match tracker domain_name with
    | some _ => (setT tracker domain_name none, false)
    | none => (tracker, false)

/-- Lines 94-100: one POST to the lambda URL; every exception is caught
and logged, so the caller sees one recorded call whatever the outcome. -/
def update_client_ip_via_lambda (client_ip : String) (connectivity : String)
    (domain_name : Option String) (ok : Bool) : List ExtCall :=
  [ExtCall.lambdaUpdate client_ip connectivity domain_name ok]

/-- Lines 87-92: one LightSail `replace_ip("ap-northeast-1", "Debian-1")`
call; the `except` swallows any failure, so exactly one attempt is
recorded and nothing is retried. -/
def replace_instance_ip (ok : Bool) : List ExtCall :=
  [ExtCall.replaceIp "ap-northeast-1" "Debian-1" ok]

/-- One iteration of the receive loop's body (lines 128-168) on a
successfully received datagram: parse, and for a primary-protocol report
notify the lambda and run the failure-timer machine; `v6` and unknown
protocols, and malformed payloads, are logged only. -/
def receiveStep (tracker : Tracker) (senderIp : String) (payload : String)
    (now : Time) (lambdaOk : Bool) (replaceOk : Bool) :
    Tracker × List ExtCall :=
  match parseReport payload with
  | none => (tracker, [])
  | some r =>
    match r.protocol with
    | Protocol.primary =>
      let notif := update_client_ip_via_lambda senderIp r.connectivityFlag
        (some r.domain) lambdaOk
      let obs := observe tracker r.domain r.connectivityFlag now
      (obs.1, notif ++ (if obs.2 then replace_instance_ip replaceOk else []))
    | Protocol.secondary => (tracker, [])
    | Protocol.unknown => (tracker, [])

/-- One datagram delivered to the receive loop, together with the clock
reading at processing time and the outcomes the environment chose for
the external calls this datagram may cause. -/
structure Datagram where
  senderIp : String
  payload : String
  now : Time
  lambdaOk : Bool
  replaceOk : Bool

/-- Folding the receive loop's body over a sequence of datagrams,
accumulating the external calls in order. -/
def processAll (tracker : Tracker) : List Datagram → Tracker × List ExtCall
  | [] => (tracker, [])
  | dg :: rest =>
    let r := receiveStep tracker dg.senderIp dg.payload dg.now
      dg.lambdaOk dg.replaceOk
    let r2 := processAll r.1 rest
    (r2.1, r.2 ++ r2.2)

/-- The mutable server attributes a run of `receive_loop` touches. -/
structure ServerState where
  connectivity_0_start_time : Tracker

/-- Lines 115-172: `receive_loop` first reassigns
`self.connectivity_0_start_time = {}` (line 117), then binds the socket
(returning early on bind failure) and processes datagrams.  The prior
value of the dictionary is never read. -/
def receive_loop (_s : ServerState) (bindOk : Bool) (ds : List Datagram) :
    ServerState × List ExtCall :=
  let s1 : ServerState := ⟨fun _ => none⟩
  if bindOk then
    let r := processAll s1.connectivity_0_start_time ds
    (⟨r.1⟩, r.2)
  else
    (s1, [])

/-- Lines 102-113: `restart_udp_server` closes the socket, reopens it and
re-enters `receive_loop` via `start_receive_thread`. -/
def restart_udp_server (s : ServerState) (bindOk : Bool)
    (ds : List Datagram) : ServerState × List ExtCall :=
  receive_loop s bindOk ds

/-- A sequence of primary-protocol `"0"`-flag observations for one domain
at the given times: the tracker after all of them, and how many times
remediation fired. -/
def runZeros (tracker : Tracker) (d : Domain) : List Time → Tracker × Nat
  | [] => (tracker, 0)
  | t :: ts =>
    let r := observe tracker d "0" t
    let rest := runZeros r.1 d ts
    (rest.1, (if r.2 then 1 else 0) + rest.2)

/-- Lines 35-44 (`_request_ip`): a lookup attempt yields its stripped
body if the HTTP call succeeded with a non-empty body, else `None`. -/
def request_ip (resp : Option String) : Option String :=
  match resp with
  | none => none
  | some body =>
    let ip := pyStrip body
    if ip = "" then none else some ip

/-- Lines 46-51 (`_get_public_ip`): first successful provider wins. -/
def get_public_ip : List (Option String) → Option String
  | [] => none
  | r :: rest =>
    match request_ip r with
    | some ip => some ip
    | none => get_public_ip rest

/-- Lines 59-68 (`get_local_ipv4`): the local-socket trick returns the
socket's own address, or the literal `"0.0.0.0"` if it raised. -/
def get_local_ipv4 : Option String → String
  | some ip => ip
  | none => "0.0.0.0"

/-- Line 81-82 (`get_ipv4`): `get_public_ipv4() or get_local_ipv4()`,
with Python truthiness on the left operand. -/
def get_ipv4 (responses : List (Option String)) (sockResult : Option String) :
    String :=
  match get_public_ip responses with
  | some ip => if ip = "" then get_local_ipv4 sockResult else ip
  | none => get_local_ipv4 sockResult

/-- One iteration of `ip_monitor_loop` (lines 184-195): resolve, and if
the result is truthy and either no address is stored or it differs from
the stored one, notify the lambda with flag `"1"` and store it. -/
def ip_monitor_step (homeDomain : String) (last_ip : Option String)
    (current_ip : String) (lambdaOk : Bool) :
    Option String × List ExtCall :=
  if current_ip = "" then (last_ip, [])
  else
    match last_ip with
    | none =>
      (some current_ip,
        update_client_ip_via_lambda current_ip "1" (some homeDomain) lambdaOk)
    | some l =>
      if current_ip = l then (some l, [])
      else
        (some current_ip,
          update_client_ip_via_lambda current_ip "1" (some homeDomain) lambdaOk)

/-! ### Helper lemmas -/

theorem setT_self (m : Tracker) (d : Domain) (v : Option Time) :
    setT m d v d = v := by
  simp [setT]

theorem setT_of_ne (m : Tracker) (d : Domain) (v : Option Time)
    (d' : Domain) (h : d' ≠ d) : setT m d v d' = m d' := by
  simp [setT, h]

theorem parseReport_none_of_short (payload : String)
    (h : (pySplit (pyStrip payload)).length < 4) :
    parseReport payload = none := by
  unfold parseReport
  rcases hs : pySplit (pyStrip payload) with _ | ⟨a, _ | ⟨b, _ | ⟨c, _ | ⟨e, rest⟩⟩⟩⟩
  · rfl
  · rfl
  · rfl
  · rfl
  · rw [hs] at h
    simp at h
    omega

theorem runZeros_lt_threshold (d : Domain) (t0 : Time) (ts : List Time) :
    ∀ tracker : Tracker, tracker d = some t0 →
      (∀ t ∈ ts, t - t0 < 300) → runZeros tracker d ts = (tracker, 0) := by
  induction ts with
  | nil => intro tracker _ _; rfl
  | cons t ts ih =>
    intro tracker h0 hlt
    have h1 : observe tracker d "0" t = (tracker, false) := by
      simp [observe, h0, not_le.mpr (hlt t (by simp))]
    have ih' := ih tracker h0 (fun x hx => hlt x (List.mem_cons_of_mem _ hx))
    simp [runZeros, h1, ih']

/-- A concrete tracker with one entry, used to instantiate theorems with
hypotheses at concrete inputs. -/
def trackerEx : Tracker := setT (fun _ => none) "example.com" (some 3)

/-! ### Claims -/

/-- Claim C1 — the Failure Tracker's observe step satisfies the full case
analysis: a non-`"0"` flag removes any existing entry and never
remediates; a `"0"` flag with no entry creates one at `now` without
remediating; a `"0"` flag with an entry whose elapsed time reaches 300
remediates and resets the entry to `now`; a `"0"` flag with elapsed
time under 300 changes nothing and does not remediate. -/
theorem observe_full_case_analysis (tracker : Tracker) (d : Domain)
    (flag : String) (now : Time) :
    (flag ≠ "0" → tracker d = none →
      observe tracker d flag now = (tracker, false)) ∧
    (flag ≠ "0" → (∃ t, tracker d = some t) →
      observe tracker d flag now = (setT tracker d none, false)) ∧
    (flag = "0" → tracker d = none →
      observe tracker d flag now = (setT tracker d (some now), false)) ∧
    (∀ start, flag = "0" → tracker d = some start → 300 ≤ now - start →
      observe tracker d flag now = (setT tracker d (some now), true)) ∧
    (∀ start, flag = "0" → tracker d = some start → now - start < 300 →
      observe tracker d flag now = (tracker, false)) := by
  refine ⟨fun h1 h2 => ?_, fun h1 h2 => ?_, fun h1 h2 => ?_,
    fun start h1 h2 h3 => ?_, fun start h1 h2 h3 => ?_⟩
  · simp [observe, h1, h2]
  · obtain ⟨t, ht⟩ := h2
    simp [observe, h1, ht]
  · simp [observe, h1, h2]
  · simp [observe, h1, h2, h3]
  · simp [observe, h1, h2, not_le.mpr h3]

/-- Claim C1 witness: the five cases at concrete inputs. -/
theorem observe_full_case_analysis_witness :
    observe (fun _ => none) "example.com" "1" 10
      = ((fun _ => none : Tracker), false) ∧
    observe trackerEx "example.com" "1" 10
      = (setT trackerEx "example.com" none, false) ∧
    observe (fun _ => none) "example.com" "0" 10
      = (setT (fun _ => none) "example.com" (some 10), false) ∧
    observe trackerEx "example.com" "0" 303
      = (setT trackerEx "example.com" (some 303), true) ∧
    observe trackerEx "example.com" "0" 100 = (trackerEx, false) :=
  ⟨(observe_full_case_analysis _ "example.com" "1" 10).1 (by decide) rfl,
   (observe_full_case_analysis trackerEx "example.com" "1" 10).2.1
     (by decide) ⟨3, rfl⟩,
   (observe_full_case_analysis _ "example.com" "0" 10).2.2.1 rfl rfl,
   (observe_full_case_analysis trackerEx "example.com" "0" 303).2.2.2.1 3
     rfl rfl (by decide),
   (observe_full_case_analysis trackerEx "example.com" "0" 100).2.2.2.2 3
     rfl rfl (by decide)⟩

/-- Claim C2 — debounce invariant: starting from a domain with no tracked
failure, any sequence of `"0"`-flag observations whose timestamps all lie
within strictly less than 300 seconds of each other never triggers
remediation. -/
theorem zero_reports_within_threshold_never_remediate (tracker : Tracker)
    (d : Domain) (ts : List Time) (h0 : tracker d = none)
    (hspan : ∀ t ∈ ts, ∀ t' ∈ ts, t - t' < 300) :
    (runZeros tracker d ts).2 = 0 := by
  cases ts with
  | nil => rfl
  | cons t0 rest =>
    have h1 : observe tracker d "0" t0 = (setT tracker d (some t0), false) := by
      simp [observe, h0]
    have h2 : runZeros (setT tracker d (some t0)) d rest
        = (setT tracker d (some t0), 0) :=
      runZeros_lt_threshold d t0 rest _ (setT_self _ _ _)
        (fun t ht => hspan t (List.mem_cons_of_mem _ ht) t0
          (List.mem_cons_self _ _))
    simp [runZeros, h1, h2]

/-- Claim C2 witness: three `"0"` reports at 0, 100 and 299 seconds never
remediate. -/
theorem zero_reports_within_threshold_never_remediate_witness :
    (runZeros (fun _ => none) "example.com" [0, 100, 299]).2 = 0 :=
  zero_reports_within_threshold_never_remediate _ _ _ rfl (by decide)

/-- Claim C6 — protocol isolation: a well-formed report whose protocol is
secondary or unknown leaves the tracker unchanged and performs no
external call. -/
theorem nonprimary_report_isolated (tracker : Tracker)
    (senderIp payload : String) (now : Time) (lambdaOk replaceOk : Bool)
    (r : Report) (hp : parseReport payload = some r)
    (hproto : r.protocol ≠ Protocol.primary) :
    receiveStep tracker senderIp payload now lambdaOk replaceOk
      = (tracker, []) := by
  unfold receiveStep
  rw [hp]
  obtain ⟨dom, proto, addr, flag⟩ := r
  cases proto
  · exact absurd rfl hproto
  · rfl
  · rfl

/-- Claim C6 witness: a `v6` report is inert. -/
theorem nonprimary_report_isolated_witness :
    receiveStep (fun _ => none) "1.2.3.4" "example.com,v6,::1,0" 0 true true
      = ((fun _ => none : Tracker), []) :=
  nonprimary_report_isolated _ _ _ _ _ _
    ⟨"example.com", Protocol.secondary, "::1", "0"⟩ (by decide) (by decide)

/-- Claim C7 — malformed-input isolation: a payload with fewer than 4
comma-separated fields mutates no state and makes no external call. -/
theorem malformed_payload_isolated (tracker : Tracker)
    (senderIp payload : String) (now : Time) (lambdaOk replaceOk : Bool)
    (h : (pySplit (pyStrip payload)).length < 4) :
    receiveStep tracker senderIp payload now lambdaOk replaceOk
      = (tracker, []) := by
  unfold receiveStep
  rw [parseReport_none_of_short payload h]

/-- Claim C7 witness: the two-field payload `"foo,bar"` is dropped
without any effect. -/
theorem malformed_payload_isolated_witness :
    receiveStep (fun _ => none) "1.2.3.4" "foo,bar" 0 true true
      = ((fun _ => none : Tracker), []) :=
  malformed_payload_isolated _ _ _ _ _ _ (by decide)

/-- Claim C3 — Address Monitor debounce: an unchanged resolution does
nothing; a first resolution or a changed resolution sends exactly one
notification carrying the new address with flag `"1"` and stores it. -/
theorem ip_monitor_debounce (homeDomain : String) (last : Option String)
    (cur : String) (ok : Bool) (hcur : cur ≠ "") :
    (∀ l, last = some l → cur = l →
      ip_monitor_step homeDomain last cur ok = (some l, [])) ∧
    (last = none →
      ip_monitor_step homeDomain last cur ok
        = (some cur, [ExtCall.lambdaUpdate cur "1" (some homeDomain) ok])) ∧
    (∀ l, last = some l → cur ≠ l →
      ip_monitor_step homeDomain last cur ok
        = (some cur, [ExtCall.lambdaUpdate cur "1" (some homeDomain) ok])) := by
  refine ⟨fun l h1 h2 => ?_, fun h1 => ?_, fun l h1 h2 => ?_⟩
  · subst h2
    simp [ip_monitor_step, h1, hcur]
  · simp [ip_monitor_step, h1, hcur, update_client_ip_via_lambda]
  · simp [ip_monitor_step, h1, h2, hcur, update_client_ip_via_lambda]

/-- Claim C3 witness: the three poll scenarios of the design document at
concrete addresses. -/
theorem ip_monitor_debounce_witness :
    ip_monitor_step "home.example" (some "9.9.9.9") "9.9.9.9" true
      = (some "9.9.9.9", []) ∧
    ip_monitor_step "home.example" none "9.9.9.9" true
      = (some "9.9.9.9",
         [ExtCall.lambdaUpdate "9.9.9.9" "1" (some "home.example") true]) ∧
    ip_monitor_step "home.example" (some "9.9.9.9") "8.8.4.4" true
      = (some "8.8.4.4",
         [ExtCall.lambdaUpdate "8.8.4.4" "1" (some "home.example") true]) :=
  ⟨(ip_monitor_debounce "home.example" (some "9.9.9.9") "9.9.9.9" true
      (by decide)).1 "9.9.9.9" rfl rfl,
   (ip_monitor_debounce "home.example" none "9.9.9.9" true (by decide)).2.1 rfl,
   (ip_monitor_debounce "home.example" (some "9.9.9.9") "8.8.4.4" true
      (by decide)).2.2 "9.9.9.9" rfl (by decide)⟩

/-- Claim C4 counterexample — lookup exhaustion is not inert: when every
provider and the local fallback fail, `get_ipv4` yields the non-empty
sentinel `"0.0.0.0"`, and the monitor overwrites a previously known
address with it and sends a notification carrying it. -/
theorem lookup_exhaustion_overwrites :
    get_ipv4 [none, none, none, none] none = "0.0.0.0" ∧
    ip_monitor_step "home.example" (some "9.9.9.9")
        (get_ipv4 [none, none, none, none] none) true
      = (some "0.0.0.0",
         [ExtCall.lambdaUpdate "0.0.0.0" "1" (some "home.example") true]) ∧
    (some "0.0.0.0" : Option String) ≠ some "9.9.9.9" ∧
    ([ExtCall.lambdaUpdate "0.0.0.0" "1" (some "home.example") true]
      : List ExtCall) ≠ [] :=
  ⟨rfl, rfl, by decide, by decide⟩

/-- Claim C4 amended — when every provider and the local fallback fail,
resolution yields the sentinel `"0.0.0.0"`, which the monitor treats
like any resolved address: it is inert only when the stored value is
already `"0.0.0.0"`; otherwise it overwrites the stored value and sends
one notification carrying `"0.0.0.0"`. -/
theorem lookup_exhaustion_amended (responses : List (Option String))
    (sockResult : Option String) (homeDomain : String)
    (last : Option String) (ok : Bool)
    (hresp : get_public_ip responses = none) (hsock : sockResult = none) :
    get_ipv4 responses sockResult = "0.0.0.0" ∧
    (last = some "0.0.0.0" →
      ip_monitor_step homeDomain last (get_ipv4 responses sockResult) ok
        = (last, [])) ∧
    (last ≠ some "0.0.0.0" →
      ip_monitor_step homeDomain last (get_ipv4 responses sockResult) ok
        = (some "0.0.0.0",
           [ExtCall.lambdaUpdate "0.0.0.0" "1" (some homeDomain) ok])) := by
  have hcur : get_ipv4 responses sockResult = "0.0.0.0" := by
    simp [get_ipv4, hresp, hsock, get_local_ipv4]
  refine ⟨hcur, fun h1 => ?_, fun h1 => ?_⟩
  · rw [hcur, h1]
    rfl
  · rw [hcur]
    rcases last with _ | l
    · rfl
    · have hl : ("0.0.0.0" : String) ≠ l := by
        intro h
        exact h1 (by rw [← h])
      simp [ip_monitor_step, hl, update_client_ip_via_lambda]

/-- Claim C4 amended witness: with all four providers and the local probe
failed, a stored `"0.0.0.0"` stays untouched and a stored different
address is overwritten with one notification. -/
theorem lookup_exhaustion_amended_witness :
    get_ipv4 [none, none, none, none] none = "0.0.0.0" ∧
    ip_monitor_step "home.example" (some "0.0.0.0")
        (get_ipv4 [none, none, none, none] none) true
      = (some "0.0.0.0", []) ∧
    ip_monitor_step "home.example" none
        (get_ipv4 [none, none, none, none] none) true
      = (some "0.0.0.0",
         [ExtCall.lambdaUpdate "0.0.0.0" "1" (some "home.example") true]) :=
  ⟨(lookup_exhaustion_amended [none, none, none, none] none "home.example"
      (some "0.0.0.0") true rfl rfl).1,
   (lookup_exhaustion_amended [none, none, none, none] none "home.example"
      (some "0.0.0.0") true rfl rfl).2.1 rfl,
   (lookup_exhaustion_amended [none, none, none, none] none "home.example"
      none true rfl rfl).2.2 (by decide)⟩

/-- Claim C5 counterexample — the source strips the payload before
splitting: on the newline-terminated payload the code parses the flag as
`"0"`, while splitting the raw payload on commas, as the claim words it,
yields the fourth field `"0\n"`. -/
theorem parse_not_raw_split :
    parseReport "example.com,v4,1.2.3.4,0\n"
      = some ⟨"example.com", Protocol.primary, "1.2.3.4", "0"⟩ ∧
    parseReportSpec "example.com,v4,1.2.3.4,0\n"
      = some ⟨"example.com", Protocol.primary, "1.2.3.4", "0\n"⟩ ∧
    parseReport "example.com,v4,1.2.3.4,0\n"
      ≠ parseReportSpec "example.com,v4,1.2.3.4,0\n" :=
  ⟨by decide, by decide, by decide⟩

/-- Claim C5 amended — parsing contract with the strip made explicit: the
payload is stripped of surrounding whitespace and then split on commas;
fewer than 4 fields is malformed; otherwise the first four fields map
positionally to domain, protocol, reported address and connectivity
flag, extra fields are ignored, protocol matches `"v4"`/`"v6"`
case-insensitively with everything else unknown, and the connectivity
flag influences processing only through exact string equality with
`"0"`. -/
theorem parse_contract (payload : String) :
    ((pySplit (pyStrip payload)).length < 4 → parseReport payload = none) ∧
    (∀ d p ip c rest, pySplit (pyStrip payload) = d :: p :: ip :: c :: rest →
      parseReport payload = some ⟨d, parseProtocol p, ip, c⟩) ∧
    (∀ s, parseProtocol s = Protocol.primary ↔ pyLower s = "v4") ∧
    (∀ s, parseProtocol s = Protocol.secondary ↔ pyLower s = "v6") ∧
    (∀ s, pyLower s ≠ "v4" → pyLower s ≠ "v6" →
      parseProtocol s = Protocol.unknown) ∧
    (∀ tracker d f f' now, (f = "0" ↔ f' = "0") →
      observe tracker d f now = observe tracker d f' now) := by
  refine ⟨parseReport_none_of_short payload, fun d p ip c rest h => ?_,
    fun s => ?_, fun s => ?_, fun s h1 h2 => ?_,
    fun tracker d f f' now hiff => ?_⟩
  · unfold parseReport
    rw [h]
  · by_cases h : pyLower s = "v4"
    · simp [parseProtocol, h]
    · by_cases h2 : pyLower s = "v6" <;> simp [parseProtocol, h, h2]
  · by_cases h : pyLower s = "v4"
    · simp [parseProtocol, h]
    · by_cases h2 : pyLower s = "v6" <;> simp [parseProtocol, h, h2]
  · simp [parseProtocol, h1, h2]
  · by_cases hf : f = "0"
    · rw [hf, hiff.mp hf]
    · have hf' : f' ≠ "0" := fun h => hf (hiff.mpr h)
      simp [observe, hf, hf']

/-- Claim C5 amended witness: concrete instances of each conjunct of the
parsing contract. -/
theorem parse_contract_witness :
    parseReport "foo,bar" = none ∧
    parseReport "a,V4,ip,0,x"
      = some ⟨"a", parseProtocol "V4", "ip", "0"⟩ ∧
    (parseProtocol "V4" = Protocol.primary ↔ pyLower "V4" = "v4") ∧
    (parseProtocol "V6" = Protocol.secondary ↔ pyLower "V6" = "v6") ∧
    parseProtocol "http" = Protocol.unknown ∧
    observe (fun _ => none) "example.com" "2" 5
      = observe (fun _ => none) "example.com" "1" 5 :=
  ⟨(parse_contract "foo,bar").1 (by decide),
   (parse_contract "a,V4,ip,0,x").2.1 "a" "V4" "ip" "0" ["x"] (by decide),
   (parse_contract "").2.2.1 "V4",
   (parse_contract "").2.2.2.1 "V6",
   (parse_contract "").2.2.2.2.1 "http" (by decide) (by decide),
   (parse_contract "").2.2.2.2.2 (fun _ => none) "example.com" "2" "1" 5
     (by decide)⟩

/-- Claim C8 — remediation-failure atomicity: when the threshold is
crossed, exactly one instance-replacement attempt is recorded, the
tracker entry is reset to the trigger time identically for a failed and
a successful call, and further `"0"` reports within the next 300
seconds cannot remediate. -/
theorem remediation_failure_atomicity (tracker : Tracker)
    (senderIp payload : String) (now start : Time) (lambdaOk : Bool)
    (d addr : String)
    (hp : parseReport payload = some ⟨d, Protocol.primary, addr, "0"⟩)
    (hd : tracker d = some start) (hel : 300 ≤ now - start) :
    (∀ replaceOk : Bool,
      receiveStep tracker senderIp payload now lambdaOk replaceOk
        = (setT tracker d (some now),
           [ExtCall.lambdaUpdate senderIp "0" (some d) lambdaOk,
            ExtCall.replaceIp "ap-northeast-1" "Debian-1" replaceOk])) ∧
    (∀ ts : List Time, (∀ t ∈ ts, t - now < 300) →
      (runZeros (setT tracker d (some now)) d ts).2 = 0) := by
  constructor
  · intro replaceOk
    unfold receiveStep
    rw [hp]
    have hobs : observe tracker d "0" now = (setT tracker d (some now), true) := by
      simp [observe, hd, hel]
    simp [hobs, update_client_ip_via_lambda, replace_instance_ip]
  · intro ts hts
    rw [runZeros_lt_threshold d now ts (setT tracker d (some now))
      (setT_self _ _ _) hts]

/-- Claim C8 witness: a threshold crossing at 303 with entry started at
3, under a successful and under a failed replacement call, and two
follow-up `"0"` reports inside the next window. -/
theorem remediation_failure_atomicity_witness :
    receiveStep trackerEx "5.6.7.8" "example.com,v4,1.2.3.4,0" 303 true true
      = (setT trackerEx "example.com" (some 303),
         [ExtCall.lambdaUpdate "5.6.7.8" "0" (some "example.com") true,
          ExtCall.replaceIp "ap-northeast-1" "Debian-1" true]) ∧
    receiveStep trackerEx "5.6.7.8" "example.com,v4,1.2.3.4,0" 303 true false
      = (setT trackerEx "example.com" (some 303),
         [ExtCall.lambdaUpdate "5.6.7.8" "0" (some "example.com") true,
          ExtCall.replaceIp "ap-northeast-1" "Debian-1" false]) ∧
    (runZeros (setT trackerEx "example.com" (some 303)) "example.com"
      [400, 602]).2 = 0 :=
  ⟨(remediation_failure_atomicity trackerEx "5.6.7.8" _ 303 3 true
      "example.com" "1.2.3.4" (by decide) rfl (by decide)).1 true,
   (remediation_failure_atomicity trackerEx "5.6.7.8" _ 303 3 true
      "example.com" "1.2.3.4" (by decide) rfl (by decide)).1 false,
   (remediation_failure_atomicity trackerEx "5.6.7.8"
      "example.com,v4,1.2.3.4,0" 303 3 true "example.com" "1.2.3.4"
      (by decide) rfl (by decide)).2 [400, 602] (by decide)⟩

/-- Claim C9 counterexample — the receive loop's failure timing does not
use a monotonic clock: the source reads `time.time()`, the system wall
clock. -/
theorem failure_clock_not_monotonic :
    failureClock ≠ ClockSource.monotonicClock := by decide

/-- Claim C9 amended — every timestamp stored as a domain's failure start
comes from the receiver's wall clock (`time.time()`) read at processing
time and never from the report's content: after processing any
datagram, each tracked value is either the previously tracked one,
absent, or exactly the clock reading `now`. -/
theorem stored_timestamps_from_receiver_clock (tracker : Tracker)
    (senderIp payload : String) (now : Time) (lambdaOk replaceOk : Bool) :
    failureClock = ClockSource.wallClock ∧
    ∀ d, (receiveStep tracker senderIp payload now lambdaOk replaceOk).1 d
           = tracker d ∨
         (receiveStep tracker senderIp payload now lambdaOk replaceOk).1 d
           = none ∨
         (receiveStep tracker senderIp payload now lambdaOk replaceOk).1 d
           = some now := by
  refine ⟨rfl, fun d => ?_⟩
  unfold receiveStep
  rcases hp : parseReport payload with _ | r
  · exact Or.inl rfl
  · obtain ⟨dom, proto, addr, flag⟩ := r
    cases proto
    · show (observe tracker dom flag now).1 d = tracker d ∨
        (observe tracker dom flag now).1 d = none ∨
        (observe tracker dom flag now).1 d = some now
      unfold observe
      by_cases hf : flag = "0"
      · rcases ht : tracker dom with _ | start
        · by_cases hdd : d = dom <;> simp [hf, ht, setT, hdd]
        · by_cases hth : 300 ≤ now - start <;>
            by_cases hdd : d = dom <;> simp [hf, ht, hth, setT, hdd]
      · rcases ht : tracker dom with _ | start <;>
          by_cases hdd : d = dom <;> simp [hf, ht, setT, hdd]
    · exact Or.inl rfl
    · exact Or.inl rfl

/-- Claim C10 — listener restart discards failure history: `receive_loop`
reinitialises the per-domain map to empty before binding and before
processing any datagram, so its behaviour is independent of the prior
state, `restart_udp_server` just re-enters it, and after zero datagrams
(or a failed bind) every domain is untracked. -/
theorem restart_resets_failure_history (s s' : ServerState) (bindOk : Bool)
    (ds : List Datagram) :
    receive_loop s bindOk ds = receive_loop s' bindOk ds ∧
    restart_udp_server s bindOk ds = receive_loop s bindOk ds ∧
    (∀ d, (receive_loop s bindOk []).1.connectivity_0_start_time d = none) ∧
    (∀ d, (receive_loop s false ds).1.connectivity_0_start_time d = none) := by
  refine ⟨rfl, rfl, fun d => ?_, fun d => ?_⟩
  · cases bindOk <;> rfl
  · rfl

end CNListener
